import Mathlib

/-
Verification of the `omit` optional-value container (blink-io/opt).

The repository holds two near-duplicate implementations of the same
container: `src/omit/omit.go` and the unnamed file `src/unnamed/part_000`
(the latter matches the accompanying test file `omit_test.go`, which uses
`FromCond`, `GetOrZero`, `MarshalJSONIsZero` and the lowercase `state`
type that only the unnamed file declares).  The shallow embedding below
follows the unnamed file wherever the two variants agree up to the
value-zeroing detail, and embeds `src/omit/omit.go`'s richer
`Value` method (the database value adapter with the fixed conversion
policy) as well as its `Ptr` accessor, which the unnamed file lacks.

External collaborators (the standard JSON codec for the element type, the
element type's own text codec, and the generic `opt.ConvertAssign`
best-effort coercion, which lives outside the provided sources) are
passed in as function parameters, exactly as the spec treats them
("external collaborator with contract: best-effort convert ... or fail").
Concrete instances of those collaborators used by witnesses and
counterexamples are defined further below, each documented with what it
models.

Go byte slices on the wire are modelled as `String`; a `nil`/empty byte
slice is the empty string (the source only ever tests `len(data) == 0`
and equality with the 4-byte literal `null`).  Mutating pointer-receiver
methods are modelled by explicit state passing: a method that in Go
mutates `*v` and returns `error` becomes a function returning
`Except String Unit × Val T` (the error outcome and the new container).
A Go panic is modelled as the `Except.error` outcome of the operation,
as is the error result of a fallible method; doc comments say which one
is meant where both occur.
-/

set_option autoImplicit false

namespace Omit

/-- The state of the omittable object (`state` / `State` in the sources):
`StateUnset = 0`, `StateSet = 1`. -/
inductive State where
  | unset
  | set
  deriving DecidableEq, Repr

/-- `Val` allows representing a value with a state of "unset" or "set".
Mirrors `type Val[T any] struct { value T; state state }`. -/
structure Val (T : Type) where
  value : T
  state : State
  deriving DecidableEq, Repr

/-- `New` creates a new value that is unset (`Val[T]{}`); the Go zero value
of `T` is modelled by `default`. -/
def New (T : Type) [Inhabited T] : Val T :=
  { value := default, state := State.unset }

/-- `From` a value which is considered set. -/
def From {T : Type} (val : T) : Val T :=
  { value := val, state := State.set }

/-- `FromPtr`: a Go pointer is modelled as `Option T`; a nil pointer gives
an unset value (with the zero value in the slot), otherwise the
dereferenced value is stored as set. -/
def FromPtr {T : Type} [Inhabited T] (val : Option T) : Val T :=
  match val with
  | none => { value := default, state := State.unset }
  | some t => { value := t, state := State.set }

/-- `FromCond` conditionally creates a set value if the bool is true, else
an omitted value. -/
def FromCond {T : Type} [Inhabited T] (val : T) (ok : Bool) : Val T :=
  if !ok then { value := default, state := State.unset }
  else { value := val, state := State.set }

/-- `Get` the underlying value, if one exists: `(value, true)` when set,
`(zero, false)` when unset. -/
def Val.Get {T : Type} [Inhabited T] (v : Val T) : T × Bool :=
  if v.state = State.set then (v.value, true)
  else (default, false)

/-- `GetOr` gets the value or returns a fallback if the value does not
exist. -/
def Val.GetOr {T : Type} (v : Val T) (fallback : T) : T :=
  if v.state = State.set then v.value else fallback

/-- `GetOrZero` returns the zero value for `T` if the value was omitted. -/
def Val.GetOrZero {T : Type} [Inhabited T] (v : Val T) : T :=
  if v.state ≠ State.set then default else v.value

/-- `MustGet` retrieves the value or panics; the panic
(`panic("no value present")`) is modelled as the `Except.error` outcome. -/
def Val.MustGet {T : Type} [Inhabited T] (v : Val T) : Except String T :=
  match v.Get with
  | (val, true) => Except.ok val
  | (_, false) => Except.error "no value present"

/-- Method `Map`: transforms the value inside if it is set, else returns a
value of the same state (with the zero value in the slot, per
`Val[T]{state: v.state}`). -/
def Val.Map {T : Type} [Inhabited T] (v : Val T) (fn : T → T) : Val T :=
  if v.state = State.set then From (fn v.value)
  else { value := default, state := v.state }

/-- The free function `Map`, able to change the element type. -/
def Map {A B : Type} [Inhabited B] (v : Val A) (fn : A → B) : Val B :=
  if v.state = State.set then From (fn v.value)
  else { value := default, state := v.state }

/-- `Set` the value (and the state to set); the mutation is modelled by
returning the new container. -/
def Val.Set {T : Type} (_v : Val T) (val : T) : Val T :=
  { value := val, state := State.set }

/-- `Unset` the value: state becomes unset and the slot is cleared to the
zero value. -/
def Val.Unset {T : Type} [Inhabited T] (_v : Val T) : Val T :=
  { value := default, state := State.unset }

/-- `SetPtr` (from `src/omit/omit.go`): a nil pointer sets only the state
to unset (the slot keeps its previous value), a non-nil pointer stores the
dereferenced value as set. -/
def Val.SetPtr {T : Type} (v : Val T) (val : Option T) : Val T :=
  match val with
  | none => { v with state := State.unset }
  | some t => { value := t, state := State.set }

/-- `IsSet` returns true if `v` contains a value. -/
def Val.IsSet {T : Type} (v : Val T) : Bool :=
  v.state = State.set

/-- `IsUnset` returns true if `v` contains no value. -/
def Val.IsUnset {T : Type} (v : Val T) : Bool :=
  v.state = State.unset

/-- The `State()` method: retrieves the internal state. -/
def Val.getState {T : Type} (v : Val T) : State :=
  v.state

/-- `Ptr` (from `src/omit/omit.go`) returns a pointer to the value, or nil
if unset; the returned pointer is modelled as `Option T`. -/
def Val.Ptr {T : Type} (v : Val T) : Option T :=
  if v.state = State.set then some v.value else none

/-- `globaldata.JSONNull`, the 4-byte literal `null`. -/
def JSONNull : String := "null"

/-- `UnmarshalJSON`: the element decoder `dec` models
`json.Unmarshal(data, &v.value)`, the standard recursive decode for `T`.
Empty input resets the container to unset; the literal null token is
rejected with an error, leaving the container untouched; otherwise the
element decoder runs, and on success the decoded value is stored with
state set, while on failure its error is returned with the container
untouched. -/
def Val.UnmarshalJSON {T : Type} [Inhabited T] (dec : String → Except String T)
    (v : Val T) (data : String) : Except String Unit × Val T :=
  if data = "" then
    (Except.ok (), { value := default, state := State.unset })
  else if data = JSONNull then
    (Except.error "cannot unmarshal null value into omit value", v)
  else
    match dec data with
    | Except.error e => (Except.error e, v)
    | Except.ok t => (Except.ok (), { value := t, state := State.set })

/-- `MarshalJSON`: the element encoder `enc` models
`json.Marshal(v.value)`.  A set container encodes its value; an unset one
emits the literal null token. -/
def Val.MarshalJSON {T : Type} (enc : T → Except String String)
    (v : Val T) : Except String String :=
  match v.state with
  | State.set => enc v.value
  | State.unset => Except.ok JSONNull

/-- `MarshalText` (unnamed-file variant): an unset container produces no
bytes and no error.  A set container delegates to the element type's own
`encoding.TextMarshaler` when the type implements it (`hasTM` models the
reflection `Implements` test, `tm` the delegated call), else stringifies
the value through the generic convert-assign collaborator `ca`. -/
def Val.MarshalText {T : Type} (hasTM : Bool) (tm ca : T → Except String String)
    (v : Val T) : Except String String :=
  if v.state ≠ State.set then Except.ok ""
  else if hasTM then tm v.value
  else ca v.value

/-- `UnmarshalText` (unnamed-file variant): empty input resets the
container to unset.  Non-empty input is decoded by the element type's own
`encoding.TextUnmarshaler` when the (pointer-to-) element type implements
it (`hasTU` models the reflection `Implements` test, `tu` the delegated
call), else by the generic convert-assign collaborator `ca`; on success
the result is stored with state set, on failure the error is returned
with the container untouched. -/
def Val.UnmarshalText {T : Type} [Inhabited T] (hasTU : Bool)
    (tu ca : String → Except String T) (v : Val T) (text : String) :
    Except String Unit × Val T :=
  if text = "" then
    (Except.ok (), { value := default, state := State.unset })
  else if hasTU then
    match tu text with
    | Except.error e => (Except.error e, v)
    | Except.ok t => (Except.ok (), { value := t, state := State.set })
  else
    match ca text with
    | Except.error e => (Except.error e, v)
    | Except.ok t => (Except.ok (), { value := t, state := State.set })

/-- `Scan`: a nil source (`none`) is rejected with the designated error
and the container is untouched.  For any other source the state is
assigned `set` first and only then is the source coerced into `T` by the
convert-assign collaborator `ca`; hence on a conversion failure the error
is returned while the state is already set (the slot keeps its previous
value). -/
def Val.Scan {T S : Type} (ca : S → Except String T) (v : Val T)
    (value : Option S) : Except String Unit × Val T :=
  match value with
  | none => (Except.error "cannot store null value in omit value", v)
  | some s =>
    match ca s with
    | Except.error e => (Except.error e, { v with state := State.set })
    | Except.ok t => (Except.ok (), { value := t, state := State.set })

/-
Reflection universe.  The methods `MarshalJSONIsZero` (unnamed file,
lines 219-237) and `Value` (`src/omit/omit.go`, lines 254-289) inspect
the held value through `reflect`.  They are embedded at the concrete
element type `GoValue`, a universe of Go runtime values carrying exactly
the information those methods inspect: the `reflect` kind, nil-ness of
nilable values, primitive payloads, the pointed-to value of pointers
(a representative of the element type, also present for nil pointers,
since the source strips pointers at the type level via `typ.Elem()`),
whether a struct type is `time.Time`, and whether the type implements
`driver.Valuer` together with what that implementation returns.
-/

/-- The `reflect.Kind`s distinguished by the embedded methods; every kind
outside this list (floats, chan, func, complex, ...) behaves uniformly in
the sources and is collapsed into `kOther`. -/
inductive GoKind where
  | kInt
  | kInt8
  | kInt16
  | kInt32
  | kInt64
  | kUint
  | kUint8
  | kUint16
  | kUint32
  | kUint64
  | kBool
  | kString
  | kSlice
  | kMap
  | kStruct
  | kPtr
  | kOther
  deriving DecidableEq, Repr

/-- The signed integer kinds (`reflect.Int` through `reflect.Int64`). -/
inductive IntKind where
  | iInt
  | iInt8
  | iInt16
  | iInt32
  | iInt64
  deriving DecidableEq, Repr

/-- The unsigned integer kinds (`reflect.Uint` through `reflect.Uint64`). -/
inductive UintKind where
  | uUint
  | uUint8
  | uUint16
  | uUint32
  | uUint64
  deriving DecidableEq, Repr

def IntKind.toGoKind : IntKind → GoKind
  | IntKind.iInt => GoKind.kInt
  | IntKind.iInt8 => GoKind.kInt8
  | IntKind.iInt16 => GoKind.kInt16
  | IntKind.iInt32 => GoKind.kInt32
  | IntKind.iInt64 => GoKind.kInt64

def UintKind.toGoKind : UintKind → GoKind
  | UintKind.uUint => GoKind.kUint
  | UintKind.uUint8 => GoKind.kUint8
  | UintKind.uUint16 => GoKind.kUint16
  | UintKind.uUint32 => GoKind.kUint32
  | UintKind.uUint64 => GoKind.kUint64

/-- A Go runtime value as seen through `reflect` by the embedded methods.
`vValuer` stands for a value of a (struct-kinded, like the test file's
`valuerImplementation`) type implementing `driver.Valuer`: `fails`/`msg`
describe an error result, `isNull` a nil `driver.Value` result, and `res`
the returned value otherwise.  `vOther (kindName)` stands for a value of
any kind outside the enumerated ones. -/
inductive GoValue where
  | vInt (k : IntKind) (n : Int)
  | vUint (k : UintKind) (n : Nat)
  | vBool (b : Bool)
  | vString (s : String)
  | vSlice (elem : GoKind) (isNil : Bool)
  | vMap (isNil : Bool)
  | vStruct (isTime : Bool) (payload : Int)
  | vPtr (isNil : Bool) (elemRep : GoValue)
  | vValuer (fails : Bool) (msg : String) (isNull : Bool) (res : GoValue)
  | vOther (kindName : String)
  deriving DecidableEq, Repr

/-- `reflect.TypeOf(v).Kind()` / `reflect.ValueOf(v).Kind()`. -/
def GoValue.kind : GoValue → GoKind
  | GoValue.vInt k _ => k.toGoKind
  | GoValue.vUint k _ => k.toGoKind
  | GoValue.vBool _ => GoKind.kBool
  | GoValue.vString _ => GoKind.kString
  | GoValue.vSlice _ _ => GoKind.kSlice
  | GoValue.vMap _ => GoKind.kMap
  | GoValue.vStruct _ _ => GoKind.kStruct
  | GoValue.vPtr _ _ => GoKind.kPtr
  | GoValue.vValuer _ _ _ _ => GoKind.kStruct
  | GoValue.vOther _ => GoKind.kOther

/-- The type-level pointer-stripping loop
`for typ.Kind() == reflect.Ptr { typ = typ.Elem() }` followed by
`typ.Kind()`. -/
def GoValue.stripKind : GoValue → GoKind
  | GoValue.vPtr _ elemRep => elemRep.stripKind
  | v => v.kind

/-- `reflect.Value.IsNil`, which is defined (`some`) only on nilable
kinds and panics (`none`) on every other kind, structs included. -/
def GoValue.reflectIsNil : GoValue → Option Bool
  | GoValue.vPtr isNil _ => some isNil
  | GoValue.vSlice _ isNil => some isNil
  | GoValue.vMap isNil => some isNil
  | _ => none

/-- `refVal.Type().Implements(globaldata.DriverValuerIntf)`. -/
def GoValue.implementsDriverValuer : GoValue → Bool
  | GoValue.vValuer _ _ _ _ => true
  | _ => false

/-- The delegated `valuer.Value()` call: the result of the element
type's own `driver.Valuer` implementation.  `Option GoValue` models
`driver.Value`, with `none` for a nil `driver.Value`.  Non-valuer values
never reach this (the `Implements` test guards the call site). -/
def GoValue.valuerValue : GoValue → Except String (Option GoValue)
  | GoValue.vValuer true msg _ _ => Except.error msg
  | GoValue.vValuer false _ true _ => Except.ok none
  | GoValue.vValuer false _ false res => Except.ok (some res)
  | _ => Except.ok none

/-- `refVal.Convert(globaldata.Int64Type).Int()` on an unsigned value:
Go integer conversion to `int64` reduces modulo 2^64 and reinterprets the
residue as a signed 64-bit value. -/
def uintToInt64 (n : Nat) : Int :=
  if n % 2 ^ 64 < 2 ^ 63 then ((n % 2 ^ 64 : Nat) : Int)
  else ((n % 2 ^ 64 : Nat) : Int) - 2 ^ 64

/-- `MarshalJSONIsZero` (unnamed file): true for an unset container;
for a set container, when the type-level pointer-stripped kind is map,
struct or slice, the original held value's `reflect.Value.IsNil` decides
the answer — and panics (modelled as `Except.error`) when the held value
itself is of a non-nilable kind, e.g. a bare struct; every other set
value gives false. -/
def Val.MarshalJSONIsZero (v : Val GoValue) : Except String Bool :=
  if v.state = State.unset then Except.ok true
  else
    let k := v.value.stripKind
    if k = GoKind.kMap ∨ k = GoKind.kStruct ∨ k = GoKind.kSlice then
      match v.value.reflectIsNil with
      | some true => Except.ok true
      | some false => Except.ok false
      | none => Except.error "reflect: call of reflect.Value.IsNil on non-nilable Value"
    else Except.ok false

/-- `Value` (`src/omit/omit.go` variant, the database value adapter with
the fixed conversion policy).  An unset container yields a nil
`driver.Value` (`none`) with no error; a set container delegates to the
held value's own `driver.Valuer` when its type implements it, else
applies the ordered kind policy: signed integer kinds yield their value
as `int64`, unsigned kinds are converted to `int64`, bool and string
pass the held value through, slices pass through only with a byte
element kind, structs pass through only for `time.Time`, and every other
kind fails. -/
def Val.Value (v : Val GoValue) : Except String (Option GoValue) :=
  if v.state ≠ State.set then Except.ok none
  else if v.value.implementsDriverValuer then v.value.valuerValue
  else
    match v.value with
    | GoValue.vInt _ n => Except.ok (some (GoValue.vInt IntKind.iInt64 n))
    | GoValue.vUint _ n => Except.ok (some (GoValue.vInt IntKind.iInt64 (uintToInt64 n)))
    | GoValue.vBool b => Except.ok (some (GoValue.vBool b))
    | GoValue.vString s => Except.ok (some (GoValue.vString s))
    | GoValue.vSlice elem isNil =>
      if elem = GoKind.kUint8 then Except.ok (some (GoValue.vSlice elem isNil))
      else Except.error "underlying slice type has no implementation for driver.Valuer"
    | GoValue.vStruct isTime payload =>
      if isTime then Except.ok (some (GoValue.vStruct isTime payload))
      else Except.error "underlying struct type has no implementation for driver.Valuer"
    | _ => Except.error "underlying type has no implementation for driver.Valuer"

/-
Concrete collaborator instances used by witnesses and counterexamples.
-/

/-- The standard JSON encoder for the Go type `bool`: `true` / `false`. -/
def encBool (b : Bool) : String :=
  if b then "true" else "false"

/-- The standard JSON decoder for the Go type `bool`. -/
def decBool (s : String) : Except String Bool :=
  if s = "true" then Except.ok true
  else if s = "false" then Except.ok false
  else Except.error "json: cannot unmarshal value into Go value of type bool"

/-- The standard JSON encoder for the Go type pointer-to-bool, with the
pointer modelled as `Option Bool`: a nil pointer encodes to the literal
null token, a non-nil pointer to the encoding of the pointed-to bool. -/
def ptrBoolEnc : Option Bool → String
  | none => "null"
  | some true => "true"
  | some false => "false"

/-- The standard JSON decoder for the Go type pointer-to-bool: the
literal null token decodes to the nil pointer, `true` / `false` to
pointers to the corresponding bool. -/
def ptrBoolDec (s : String) : Except String (Option Bool) :=
  if s = "null" then Except.ok none
  else if s = "true" then Except.ok (some true)
  else if s = "false" then Except.ok (some false)
  else Except.error "json: cannot unmarshal value into Go value of type bool pointer"

/-- Modelled from the spec: the generic convert-assign collaborator
(`opt.ConvertAssign`, which lives outside the provided sources) at
destination type `string` with a `string` source — "best-effort convert a
source value into a destination of static type T, or fail"; converting a
string into a string is the identity and always succeeds (section 8 of
the spec fixes `Scan "hello"` into an optional string to yield
Set/"hello"). -/
def convertAssignStringString (s : String) : Except String String :=
  Except.ok s

/-- A decimal parse of a character list: `some` of the denoted number on
a non-empty all-digit list, `none` otherwise. -/
def decimalNat? (cs : List Char) : Option Nat :=
  match cs with
  | [] => none
  | _ =>
    if cs.all (fun c => c.isDigit) then
      some (cs.foldl (fun acc c => 10 * acc + (c.toNat - 48)) 0)
    else none

/-- Modelled from the spec: the generic convert-assign collaborator
(`opt.ConvertAssign`, outside the provided sources) at destination type
`int64` with a `string` source — a best-effort decimal parse of the text
(modelled for non-negative decimals) that fails on non-numeric text such
as `abc`. -/
def convertAssignIntOfString (s : String) : Except String Int :=
  match decimalNat? s.toList with
  | some n => Except.ok (n : Int)
  | none => Except.error ("cannot convert string " ++ s ++ " into int")

/-
Claim theorems.
-/

/-- C1: JSON decode: empty input sets the state to unset with no error;
input equal to the literal JSON null token fails with an error and
leaves the container unchanged; any other input runs the element
decoder, on success storing the decoded value with state set and on
failure returning the decoder's error with the container (hence the
state) unchanged. -/
theorem C1_unmarshalJSON {T : Type} [Inhabited T]
    (dec : String → Except String T) (v : Val T) (data : String) :
    (data = "" →
      Val.UnmarshalJSON dec v data =
        (Except.ok (), { value := default, state := State.unset })) ∧
    (data = JSONNull →
      Val.UnmarshalJSON dec v data =
        (Except.error "cannot unmarshal null value into omit value", v)) ∧
    (data ≠ "" → data ≠ JSONNull →
      (∀ t, dec data = Except.ok t →
        Val.UnmarshalJSON dec v data = (Except.ok (), From t)) ∧
      (∀ e, dec data = Except.error e →
        Val.UnmarshalJSON dec v data = (Except.error e, v))) := by
  refine ⟨fun h => ?_, fun h => ?_, fun h1 h2 => ⟨fun t ht => ?_, fun e he => ?_⟩⟩
  · subst h; rfl
  · subst h; rfl
  · simp [Val.UnmarshalJSON, h1, h2, ht, From]
  · simp [Val.UnmarshalJSON, h1, h2, he]

/-- C1 witness: decoding the token `true` into an unset optional bool
yields the set container holding `true`. -/
theorem C1_unmarshalJSON_witness :
    Val.UnmarshalJSON decBool { value := false, state := State.unset } "true" =
      (Except.ok (), From true) :=
  ((C1_unmarshalJSON decBool { value := false, state := State.unset } "true").2.2
    (by decide) (by decide)).1 true rfl

/-- C2 fails as stated: take the element type pointer-to-bool, whose
standard JSON codec round-trips every value — including the nil pointer,
which encodes to the literal null token.  The container encoding of
`From none` is that null token, and decoding it is an error, so
`decode (encode (From v)) = From v` fails at `v = none` even though the
element codec round-trips. -/
theorem C2_counterexample :
    ptrBoolDec (ptrBoolEnc none) = Except.ok none ∧
    ptrBoolDec (ptrBoolEnc (some true)) = Except.ok (some true) ∧
    ptrBoolDec (ptrBoolEnc (some false)) = Except.ok (some false) ∧
    Val.MarshalJSON (fun t => Except.ok (ptrBoolEnc t))
      (From (none : Option Bool)) = Except.ok JSONNull ∧
    (Val.UnmarshalJSON ptrBoolDec
      { value := (none : Option Bool), state := State.unset } JSONNull).1 =
      Except.error "cannot unmarshal null value into omit value" :=
  ⟨rfl, rfl, rfl, rfl, rfl⟩

/-- C2 (amended): for every value `v`, JSON-decoding the JSON-encoding of
`From v` yields `From v` provided the element codec round-trips at `v`
and the encoding of `v` is neither empty nor the literal null token (a
value the element type encodes as null — e.g. a nil pointer or nil slice
— does not round-trip: its decode fails); and JSON-decoding the
JSON-encoding of an unset container always fails with the null-rejection
error rather than round-tripping to unset, because an unset container
encodes to the literal null token. -/
theorem C2_roundtrip {T : Type} [Inhabited T] (enc : T → String)
    (dec : String → Except String T) (v : T) (w : Val T)
    (hrt : dec (enc v) = Except.ok v) (hne : enc v ≠ "")
    (hnn : enc v ≠ JSONNull) :
    Val.MarshalJSON (fun t => Except.ok (enc t)) (From v) =
      Except.ok (enc v) ∧
    Val.UnmarshalJSON dec w (enc v) = (Except.ok (), From v) ∧
    (∀ u : Val T, u.state = State.unset →
      Val.MarshalJSON (fun t => Except.ok (enc t)) u = Except.ok JSONNull ∧
      Val.UnmarshalJSON dec w JSONNull =
        (Except.error "cannot unmarshal null value into omit value", w)) := by
  refine ⟨rfl, ?_, fun u hu => ⟨?_, ?_⟩⟩
  · simp [Val.UnmarshalJSON, hne, hnn, hrt, From]
  · simp [Val.MarshalJSON, hu]
  · simp [Val.UnmarshalJSON, JSONNull]

/-- C2 witness: the bool codec round-trips at `true`, whose encoding is
the non-null token `true`, and the container round-trip holds there. -/
theorem C2_roundtrip_witness :
    Val.UnmarshalJSON decBool { value := false, state := State.unset }
      (encBool true) = (Except.ok (), From true) :=
  (C2_roundtrip encBool decBool true
    { value := false, state := State.unset }
    rfl (by decide) (by decide)).2.1

/-- C3: evaluating the zero-detection hook at a set container holding a
bare struct value (the model of `From(time.Time{/-zero-/})`, stated here
with the time payload `0`): the type-level pointer stripping leaves kind
struct, so the code calls `reflect.Value.IsNil` on a struct value, which
panics (modelled as the error outcome) instead of returning false as the
claim requires for a set, non-nil value. -/
theorem C3_marshalJSONIsZero_structPanic :
    Val.MarshalJSONIsZero (From (GoValue.vStruct true 0)) =
      Except.error "reflect: call of reflect.Value.IsNil on non-nilable Value" := by
  rfl

/-- C4: the database value adapter (`src/omit/omit.go` variant): unset
yields a nil `driver.Value` with no error; a set container delegates to
the held value's own `driver.Valuer` when implemented (all three
delegation outcomes listed); otherwise signed integer kinds yield the
value as `int64`, unsigned kinds are converted to `int64`, bool and
string pass the held value through, slices pass through exactly when the
element kind is a single byte, structs pass through exactly for
`time.Time`, and every remaining kind (pointer, map, float, chan, ...)
fails with the conversion-policy-exhaustion error. -/
theorem C4_value (v : Val GoValue) :
    (v.state = State.unset → Val.Value v = Except.ok none) ∧
    (v.state = State.set →
      (∀ msg isNull res, v.value = GoValue.vValuer true msg isNull res →
        Val.Value v = Except.error msg) ∧
      (∀ msg res, v.value = GoValue.vValuer false msg true res →
        Val.Value v = Except.ok none) ∧
      (∀ msg res, v.value = GoValue.vValuer false msg false res →
        Val.Value v = Except.ok (some res)) ∧
      (∀ k n, v.value = GoValue.vInt k n →
        Val.Value v = Except.ok (some (GoValue.vInt IntKind.iInt64 n))) ∧
      (∀ k n, v.value = GoValue.vUint k n →
        Val.Value v = Except.ok (some (GoValue.vInt IntKind.iInt64 (uintToInt64 n)))) ∧
      (∀ b, v.value = GoValue.vBool b →
        Val.Value v = Except.ok (some v.value)) ∧
      (∀ s, v.value = GoValue.vString s →
        Val.Value v = Except.ok (some v.value)) ∧
      (∀ isNil, v.value = GoValue.vSlice GoKind.kUint8 isNil →
        Val.Value v = Except.ok (some v.value)) ∧
      (∀ elem isNil, v.value = GoValue.vSlice elem isNil →
        elem ≠ GoKind.kUint8 →
        Val.Value v =
          Except.error "underlying slice type has no implementation for driver.Valuer") ∧
      (∀ payload, v.value = GoValue.vStruct true payload →
        Val.Value v = Except.ok (some v.value)) ∧
      (∀ payload, v.value = GoValue.vStruct false payload →
        Val.Value v =
          Except.error "underlying struct type has no implementation for driver.Valuer") ∧
      (∀ isNil elemRep, v.value = GoValue.vPtr isNil elemRep →
        Val.Value v =
          Except.error "underlying type has no implementation for driver.Valuer") ∧
      (∀ isNil, v.value = GoValue.vMap isNil →
        Val.Value v =
          Except.error "underlying type has no implementation for driver.Valuer") ∧
      (∀ s, v.value = GoValue.vOther s →
        Val.Value v =
          Except.error "underlying type has no implementation for driver.Valuer")) := by
  constructor
  · intro h
    simp [Val.Value, h]
  · intro h
    refine ⟨?_, ?_, ?_, ?_, ?_, ?_, ?_, ?_, ?_, ?_, ?_, ?_, ?_, ?_⟩ <;>
      · intros
        simp_all [Val.Value, GoValue.implementsDriverValuer, GoValue.valuerValue]

/-- C4 witness: a set container holding the bool `true` yields that bool
through, with no error. -/
theorem C4_value_witness :
    Val.Value (From (GoValue.vBool true)) =
      Except.ok (some (GoValue.vBool true)) :=
  ((C4_value (From (GoValue.vBool true))).2 rfl).2.2.2.2.2.1 true rfl

/-- C5: Scan with a nil source fails with the designated
cannot-store-null error (container untouched); Scan with any other
source coerces it through the convert-assign collaborator, and on
success the container is set with the coerced value. -/
theorem C5_scan {T S : Type} (ca : S → Except String T) (v : Val T) :
    Val.Scan ca v none =
      (Except.error "cannot store null value in omit value", v) ∧
    (∀ s t, ca s = Except.ok t →
      Val.Scan ca v (some s) =
        (Except.ok (), { value := t, state := State.set })) := by
  refine ⟨rfl, fun s t h => ?_⟩
  simp [Val.Scan, h]

/-- C5 witness: scanning the string `hello` into a fresh optional string
yields the set container holding `hello` (the claim's example). -/
theorem C5_scan_witness :
    Val.Scan convertAssignStringString (New String) (some "hello") =
      (Except.ok (), From "hello") :=
  (C5_scan convertAssignStringString (New String)).2 "hello" "hello" rfl

/-- C6 fails as stated: Scan on an already-set container with a non-null
source the collaborator cannot convert returns the conversion error yet
leaves the container exactly in its prior state — bit-for-bit the same
set container — so a failed Scan with non-null input can very well leave
the container in its prior state. -/
theorem C6_counterexample :
    Val.Scan convertAssignIntOfString (From (5 : Int)) (some "abc") =
      (Except.error "cannot convert string abc into int", From (5 : Int)) := by
  rfl

/-- C6 (amended): when Scan is called with a non-null source and the
convert-assign conversion fails, Scan returns the conversion error but
the container's state is nonetheless Set (the state is assigned before
the conversion is attempted); so a failed Scan with non-null input
always leaves the state Set — moving an initially unset container out of
its prior state, while an initially set container keeps its prior state
Set. -/
theorem C6_scanFailure {T S : Type} (ca : S → Except String T) (v : Val T)
    (s : S) (e : String) (h : ca s = Except.error e) :
    Val.Scan ca v (some s) = (Except.error e, { v with state := State.set }) ∧
    (Val.Scan ca v (some s)).2.state = State.set := by
  constructor
  · simp [Val.Scan, h]
  · simp [Val.Scan, h]

/-- C6 witness: a failed scan of the non-numeric text `abc` into a fresh
optional int returns the conversion error with the state already Set. -/
theorem C6_scanFailure_witness :
    Val.Scan convertAssignIntOfString (New Int) (some "abc") =
      (Except.error "cannot convert string abc into int",
        { value := 0, state := State.set }) :=
  (C6_scanFailure convertAssignIntOfString (New Int) "abc"
    "cannot convert string abc into int" rfl).1

/-- C7: text decode of non-empty input (unnamed-file variant): when the
element type exposes a native text-decode capability the container
delegates to it — storing the result with state set on success,
propagating its error on failure, the convert-assign collaborator never
consulted (the outcome is the same for any two collaborators) — and only
without that capability does the convert-assign fallback coerce the
text, with the same success/failure handling. -/
theorem C7_unmarshalText {T : Type} [Inhabited T]
    (tu ca ca2 : String → Except String T) (v : Val T) (text : String)
    (hne : text ≠ "") :
    (∀ t, tu text = Except.ok t →
      Val.UnmarshalText true tu ca v text = (Except.ok (), From t)) ∧
    (∀ e, tu text = Except.error e →
      Val.UnmarshalText true tu ca v text = (Except.error e, v)) ∧
    Val.UnmarshalText true tu ca v text =
      Val.UnmarshalText true tu ca2 v text ∧
    (∀ t, ca text = Except.ok t →
      Val.UnmarshalText false tu ca v text = (Except.ok (), From t)) ∧
    (∀ e, ca text = Except.error e →
      Val.UnmarshalText false tu ca v text = (Except.error e, v)) := by
  refine ⟨fun t h => ?_, fun e h => ?_, ?_, fun t h => ?_, fun e h => ?_⟩ <;>
    simp [Val.UnmarshalText, hne, *, From]

/-- C7 witness: with a native text decoder (modelled as accepting the
text verbatim) the container decodes `1.1.1.1` to the set state holding
it, whatever the fallback collaborator would have done. -/
theorem C7_unmarshalText_witness :
    Val.UnmarshalText true (fun s => Except.ok s) convertAssignStringString
      (New String) "1.1.1.1" = (Except.ok (), From "1.1.1.1") :=
  (C7_unmarshalText (fun s => Except.ok s) convertAssignStringString
    convertAssignStringString (New String) "1.1.1.1" (by decide)).1
    "1.1.1.1" rfl

/-- C8: two containers in state unset are indistinguishable under every
public observer, whatever leftover values their slots hold: the stored
value is never observable while the state is unset. -/
theorem C8_unsetIndistinguishable {T : Type} [Inhabited T]
    (a b : Val T) (ha : a.state = State.unset) (hb : b.state = State.unset)
    (fallback : T) (fn : T → T) (enc : T → Except String String)
    (hasTM : Bool) (tm ca : T → Except String String)
    (g h : Val GoValue) (hg : g.state = State.unset)
    (hh : h.state = State.unset) :
    a.Get = b.Get ∧
    a.GetOr fallback = b.GetOr fallback ∧
    a.GetOrZero = b.GetOrZero ∧
    a.Ptr = b.Ptr ∧
    a.IsSet = b.IsSet ∧
    a.IsUnset = b.IsUnset ∧
    a.getState = b.getState ∧
    a.Map fn = b.Map fn ∧
    Val.MarshalJSON enc a = Val.MarshalJSON enc b ∧
    Val.MarshalText hasTM tm ca a = Val.MarshalText hasTM tm ca b ∧
    Val.MarshalJSONIsZero g = Val.MarshalJSONIsZero h ∧
    Val.Value g = Val.Value h := by
  simp [Val.Get, Val.GetOr, Val.GetOrZero, Val.Ptr, Val.IsSet, Val.IsUnset,
    Val.getState, Val.Map, Val.MarshalJSON, Val.MarshalText,
    Val.MarshalJSONIsZero, Val.Value, ha, hb, hg, hh]

/-- C8 witness: two unset optional ints with different leftover slot
values agree on `Get` (the first observer of the list). -/
theorem C8_unsetIndistinguishable_witness :
    Val.Get { value := (7 : Int), state := State.unset } =
      Val.Get { value := (99 : Int), state := State.unset } :=
  (C8_unsetIndistinguishable
    { value := (7 : Int), state := State.unset }
    { value := (99 : Int), state := State.unset } rfl rfl 0 id
    (fun _ => Except.ok "") true (fun _ => Except.ok "")
    (fun _ => Except.ok "")
    { value := GoValue.vString "x", state := State.unset }
    { value := GoValue.vMap true, state := State.unset } rfl rfl).1

/-- C9: the text adapter treats emptiness as absence in both directions,
for every element type: decoding an empty byte sequence yields an unset
container with no error, and encoding an unset container produces empty
output with no error. -/
theorem C9_textAbsence {T : Type} [Inhabited T] (hasTU hasTM : Bool)
    (tu ca : String → Except String T) (tm ca2 : T → Except String String)
    (v u : Val T) (hu : u.state = State.unset) :
    Val.UnmarshalText hasTU tu ca v "" =
      (Except.ok (), { value := default, state := State.unset }) ∧
    Val.MarshalText hasTM tm ca2 u = Except.ok "" := by
  refine ⟨rfl, ?_⟩
  simp [Val.MarshalText, hu]

/-- C9 witness: the two directions at the element type int. -/
theorem C9_textAbsence_witness :
    Val.UnmarshalText true (fun _ => Except.ok (0 : Int))
      convertAssignIntOfString { value := (4 : Int), state := State.set } "" =
      (Except.ok (), { value := 0, state := State.unset }) ∧
    Val.MarshalText true (fun _ => Except.ok "4") (fun _ => Except.ok "4")
      (New Int) = Except.ok "" :=
  C9_textAbsence true true (fun _ => Except.ok (0 : Int))
    convertAssignIntOfString (fun _ => Except.ok "4") (fun _ => Except.ok "4")
    { value := (4 : Int), state := State.set } (New Int) rfl

/-- C10: MustGet returns the held value when the state is set; when the
state is unset it takes the fatal path (the panic, modelled as the error
outcome) and never returns a value. -/
theorem C10_mustGet {T : Type} [Inhabited T] (v : Val T) :
    (v.state = State.set → Val.MustGet v = Except.ok v.value) ∧
    (v.state = State.unset →
      Val.MustGet v = Except.error "no value present" ∧
      ∀ t, Val.MustGet v ≠ Except.ok t) := by
  constructor
  · intro h
    simp [Val.MustGet, Val.Get, h]
  · intro h
    constructor
    · simp [Val.MustGet, Val.Get, h]
    · intro t hc
      simp [Val.MustGet, Val.Get, h] at hc

/-- C10 witness: a set optional int returns its value and a fresh unset
one takes the fatal path. -/
theorem C10_mustGet_witness :
    Val.MustGet (From (3 : Int)) = Except.ok 3 ∧
    Val.MustGet (New Int) = Except.error "no value present" :=
  ⟨(C10_mustGet (From (3 : Int))).1 rfl, ((C10_mustGet (New Int)).2 rfl).1⟩

end Omit
